import Mathlib

/-!
Shallow embedding of the Market Pricing Engine of the EbayAutolister
repository (`ebay_pricing/` package plus the pricing part of `config.py`).

Modelling conventions:
- Python floats that hold prices, timestamps and configuration constants are
  modelled as exact rationals (`ℚ`); counts are `ℕ`.
- Timestamps are rationals measured in hours, so `data_age_hours` is a plain
  difference of timestamps and the cache TTL is `24`.
- The z-score comparison `abs((price - mean) / stdev) <= threshold` of
  `market_research.remove_outliers` is expressed in the equivalent squared
  form `(price - mean)^2 <= threshold^2 * variance`, which avoids the
  irrational square root while denoting the same exact-real predicate.
- Fallible collaborator calls are passed in as `Except` values; a raised
  exception is the `Except.error` case.
- A corrupt cache blob (one on which `json.loads` or field access raises) is
  modelled as `none` in the `data_json` field of a cache entry.
- Reasoning strings are kept structurally (which tier produced the price)
  without reproducing Python float formatting; the no-data reasoning string
  is reproduced verbatim.
-/

namespace EbayPricing

/-- Data model from `ebay_pricing/__init__.py`: one sold listing. -/
structure SoldListing where
  title : String
  price : ℚ
  sold_date : ℚ
  condition : String
  source : String
  url : Option String := none
deriving DecidableEq

/-- Data model from `ebay_pricing/__init__.py`: aggregated market intelligence. -/
structure MarketData where
  brand : String
  model : String
  condition : String
  avg_sold_price : ℚ := 0
  median_sold_price : ℚ := 0
  price_range_low : ℚ := 0
  price_range_high : ℚ := 0
  sold_count : ℕ := 0
  sold_listings : List SoldListing := []
  active_listing_count : ℕ := 0
  avg_active_price : ℚ := 0
  median_active_price : ℚ := 0
  confidence : ℚ := 0
  data_age_hours : ℚ := 0
  sources : List String := []
  created_at : ℚ := 0
deriving DecidableEq

/-- Data model from `ebay_pricing/__init__.py`: final pricing recommendation. -/
structure PricingRecommendation where
  buy_it_now_price : ℚ
  min_offer_price : Option ℚ := none
  auto_accept_offer : Option ℚ := none
  auto_decline_offer : Option ℚ := none
  auction_start_price : Option ℚ := none
  auction_reserve_price : Option ℚ := none
  confidence : ℚ := 0
  reasoning : String := ""
  market_data : Option MarketData := none
deriving DecidableEq

/-! Configuration constants from `config.py` (`PRICING_CONFIG` and
`BEST_OFFER_CONFIG`). -/

def base_multiplier : ℚ := 92/100

def min_sold_samples : ℕ := 3

def outlier_threshold : ℚ := 5/2

def fallback_msrp_multiplier : ℚ := 1/2

def cache_duration_hours : ℚ := 24

/-- `PRICING_CONFIG['condition_penalties'].get(condition, 0.10)`:
a dictionary lookup with default `0.10` for unknown conditions. -/
def conditionPenalty (condition : String) : ℚ :=
  if condition = "LIKE_NEW" then 0
  else if condition = "USED_EXCELLENT" then 5/100
  else if condition = "USED_VERY_GOOD" then 10/100
  else if condition = "USED_GOOD" then 10/100
  else if condition = "USED_ACCEPTABLE" then 20/100
  else if condition = "FOR_PARTS_OR_NOT_WORKING" then 50/100
  else 10/100

def best_offer_enabled : Bool := true

def min_offer_percentage : ℚ := 85/100

def auto_accept_percentage : ℚ := 95/100

def auto_decline_percentage : ℚ := 75/100

/-! Pricing calculator, from `ebay_pricing/pricing_engine.py`,
`calculate_pricing_from_market_data` (lines 149-234). The tier selection
(the if/elif chain, lines 167-196) is factored into `selectBase`; the code
common to the three data tiers (lines 198-234) is `tierRecommendation`. -/

/-- Python truthiness test `retail_price and retail_price > 0`:
`None` and `0.0` are falsy, otherwise the comparison decides. -/
def retailUsable : Option ℚ → Bool
  | none => false
  | some r => decide (0 < r)

/-- Tier selection of `calculate_pricing_from_market_data`: returns the
chosen `base_price`, `confidence` and (abstracted) reasoning, or `none` for
the no-data terminal branch. -/
def selectBase (market_data : MarketData) (retail_price : Option ℚ) :
    Option (ℚ × ℚ × String) :=
  if min_sold_samples ≤ market_data.sold_count then
    some (market_data.avg_sold_price, 9/10, "Based on sold listings")
  else if 0 < market_data.active_listing_count then
    some (market_data.avg_active_price * (95/100), 6/10, "Based on active listings")
  else if retailUsable retail_price then
    some ((retail_price.getD 0) * fallback_msrp_multiplier, 3/10, "Fallback to MSRP")
  else none

/-- The pricing formula of line 198-203:
`buy_it_now_price = base_price * base_multiplier * (1 - condition_penalty)`. -/
def binPrice (base_price : ℚ) (condition : String) : ℚ :=
  base_price * base_multiplier * (1 - conditionPenalty condition)

/-- Common tail of the three data tiers (lines 198-234): apply the pricing
formula and attach the best-offer thresholds when the feature is enabled. -/
def tierRecommendation (market_data : MarketData) (condition : String)
    (base_price confidence : ℚ) (reasoning : String) : PricingRecommendation :=
  let buy_it_now_price := binPrice base_price condition
  { buy_it_now_price := buy_it_now_price
    min_offer_price :=
      if best_offer_enabled then some (buy_it_now_price * min_offer_percentage) else none
    auto_accept_offer :=
      if best_offer_enabled then some (buy_it_now_price * auto_accept_percentage) else none
    auto_decline_offer :=
      if best_offer_enabled then some (buy_it_now_price * auto_decline_percentage) else none
    auction_start_price := none
    auction_reserve_price := none
    confidence := confidence
    reasoning := reasoning
    market_data := some market_data }

/-- `calculate_pricing_from_market_data` (pricing_engine.py lines 149-234). -/
def calculate_pricing_from_market_data (market_data : MarketData)
    (condition : String) (retail_price : Option ℚ) : PricingRecommendation :=
  match selectBase market_data retail_price with
  | none =>
      { buy_it_now_price := 0
        confidence := 0
        reasoning := "No market data or retail price available"
        market_data := some market_data }
  | some (base_price, confidence, reasoning) =>
      tierRecommendation market_data condition base_price confidence reasoning

/-! Sold-comp statistics, from `ebay_pricing/market_research.py`
(`remove_outliers`, lines 232-281, and `calculate_sold_stats`,
lines 284-321).  `statistics.mean`, `statistics.stdev` (sample standard
deviation) and `statistics.median` are embedded as exact rational
computations. -/

def sq (q : ℚ) : ℚ := q * q

def listSum (l : List ℚ) : ℚ := l.foldr (· + ·) 0

/-- `statistics.mean`. -/
def listMean (l : List ℚ) : ℚ := listSum l / l.length

/-- Sample variance, the square of `statistics.stdev`
(denominator `n - 1`). -/
def sampleVariance (l : List ℚ) : ℚ :=
  listSum (l.map fun p => sq (p - listMean l)) / ((l.length : ℚ) - 1)

def insertSorted (x : ℚ) : List ℚ → List ℚ
  | [] => [x]
  | y :: ys => if x ≤ y then x :: y :: ys else y :: insertSorted x ys

def sortAsc (l : List ℚ) : List ℚ := l.foldr insertSorted []

/-- `statistics.median`: sort, take the middle element (odd length) or the
mean of the two middle elements (even length). -/
def listMedian (l : List ℚ) : ℚ :=
  let s := sortAsc l
  let n := s.length
  if n = 0 then 0
  else if n % 2 = 1 then s.getD (n / 2) 0
  else (s.getD (n / 2 - 1) 0 + s.getD (n / 2) 0) / 2

def listMin : List ℚ → ℚ
  | [] => 0
  | x :: xs => xs.foldl min x

def listMax : List ℚ → ℚ
  | [] => 0
  | x :: xs => xs.foldl max x

/-- The keep-condition of the z-score filter: `|price - mean| / stdev <=
threshold`, stated in the equivalent squared form over ℚ. -/
def zscoreKeepB (prices : List ℚ) (p : ℚ) : Bool :=
  decide (sq (p - listMean prices) ≤ sq outlier_threshold * sampleVariance prices)

/-- `remove_outliers` (market_research.py lines 232-281).  The Python
default `threshold=None` resolves to `PRICING_CONFIG['outlier_threshold']`;
callers here pass `outlier_threshold` explicitly. -/
def remove_outliers (threshold : ℚ) (prices : List ℚ) : List ℚ :=
  if prices.length < 3 then prices
  else if sampleVariance prices = 0 then prices
  else if (prices.filter fun p =>
      decide (sq (p - listMean prices) ≤ sq threshold * sampleVariance prices)).isEmpty then
    [listMedian prices]
  else
    prices.filter fun p =>
      decide (sq (p - listMean prices) ≤ sq threshold * sampleVariance prices)

/-- Result record of `calculate_sold_stats` (a dict in the source). -/
structure SoldStats where
  avg_sold_price : ℚ
  median_sold_price : ℚ
  price_range_low : ℚ
  price_range_high : ℚ
  sold_count : ℕ
deriving DecidableEq

/-- `calculate_sold_stats` (market_research.py lines 284-321). -/
def calculate_sold_stats (sold_listings : List SoldListing) : SoldStats :=
  if sold_listings.isEmpty then
    { avg_sold_price := 0
      median_sold_price := 0
      price_range_low := 0
      price_range_high := 0
      sold_count := 0 }
  else
    let prices := sold_listings.map SoldListing.price
    let filtered_prices := remove_outliers outlier_threshold prices
    { avg_sold_price := listMean filtered_prices
      median_sold_price := listMedian filtered_prices
      price_range_low := listMin filtered_prices
      price_range_high := listMax filtered_prices
      sold_count := sold_listings.length }

/-- Spec-side abbreviation: the raw price list of a list of sold listings. -/
def soldPrices (sold_listings : List SoldListing) : List ℚ :=
  sold_listings.map SoldListing.price

/-- Spec-side abbreviation: the working set after outlier removal. -/
def workingSet (sold_listings : List SoldListing) : List ℚ :=
  remove_outliers outlier_threshold (soldPrices sold_listings)

/-! Market data aggregation, from `ebay_pricing/pricing_engine.py`,
`fetch_market_data` (lines 90-146).  The two collaborator calls
(`research_sold_comps_ai` and `analyze_active_competition`) are passed in
as `Except` values; `Except.error` is a raised exception, absorbed by the
corresponding `try/except` block. -/

/-- Shape of the dict returned by `browse_api.analyze_active_competition`. -/
structure ActiveStats where
  avg_active_price : ℚ
  median_active_price : ℚ
  active_listing_count : ℕ
  price_range_low : ℚ
  price_range_high : ℚ
deriving DecidableEq

/-- `fetch_market_data` (pricing_engine.py lines 90-146). -/
def fetch_market_data (brand model condition : String)
    (soldResult : Except String (List SoldListing))
    (activeResult : Except String ActiveStats) : MarketData :=
  let md0 : MarketData := { brand := brand, model := model, condition := condition }
  let md1 :=
    match soldResult with
    | .error _ => md0
    | .ok sold_listings =>
        if sold_listings.isEmpty then md0
        else
          let sold_stats := calculate_sold_stats sold_listings
          { md0 with
            sold_listings := sold_listings
            avg_sold_price := sold_stats.avg_sold_price
            median_sold_price := sold_stats.median_sold_price
            price_range_low := sold_stats.price_range_low
            price_range_high := sold_stats.price_range_high
            sold_count := sold_stats.sold_count
            sources := md0.sources ++ ["ai_research"] }
  match activeResult with
  | .error _ => md1
  | .ok active_stats =>
      if 0 < active_stats.active_listing_count then
        { md1 with
          avg_active_price := active_stats.avg_active_price
          median_active_price := active_stats.median_active_price
          active_listing_count := active_stats.active_listing_count
          sources := md1.sources ++ ["browse_api"] }
      else md1

/-! Cache store, from `ebay_pricing/cache_manager.py`.  The SQLite table
`market_cache` (primary key `cache_key`) is modelled as an association list
with at most one binding per key; `INSERT OR REPLACE` puts the new binding
in front after removing the old one. -/

/-- One row of `market_cache` as produced by `_serialize_market_data`
(cache_manager.py lines 256-287): the flat JSON form of a sold listing. -/
structure SerializedSoldListing where
  title : String
  price : ℚ
  sold_date : ℚ
  condition : String
  source : String
  url : Option String
deriving DecidableEq

/-- The JSON dict built by `_serialize_market_data`: note that
`created_at` and `data_age_hours` are not among its keys. -/
structure SerializedMarketData where
  brand : String
  model : String
  condition : String
  avg_sold_price : ℚ
  median_sold_price : ℚ
  price_range_low : ℚ
  price_range_high : ℚ
  sold_count : ℕ
  sold_listings : List SerializedSoldListing
  active_listing_count : ℕ
  avg_active_price : ℚ
  median_active_price : ℚ
  confidence : ℚ
  sources : List String
deriving DecidableEq

def serializeSoldListing (l : SoldListing) : SerializedSoldListing :=
  { title := l.title
    price := l.price
    sold_date := l.sold_date
    condition := l.condition
    source := l.source
    url := l.url }

/-- `CacheManager._serialize_market_data` (cache_manager.py lines 256-287). -/
def serialize_market_data (market_data : MarketData) : SerializedMarketData :=
  { brand := market_data.brand
    model := market_data.model
    condition := market_data.condition
    avg_sold_price := market_data.avg_sold_price
    median_sold_price := market_data.median_sold_price
    price_range_low := market_data.price_range_low
    price_range_high := market_data.price_range_high
    sold_count := market_data.sold_count
    sold_listings := market_data.sold_listings.map serializeSoldListing
    active_listing_count := market_data.active_listing_count
    avg_active_price := market_data.avg_active_price
    median_active_price := market_data.median_active_price
    confidence := market_data.confidence
    sources := market_data.sources }

def deserializeSoldListing (d : SerializedSoldListing) : SoldListing :=
  { title := d.title
    price := d.price
    sold_date := d.sold_date
    condition := d.condition
    source := d.source
    url := d.url }

/-- `CacheManager._deserialize_market_data` (cache_manager.py lines
289-320).  The constructed `MarketData` has no `created_at` or
`data_age_hours` argument, so the dataclass defaults apply: `created_at`
is the construction time (`now` here) and `data_age_hours` is `0.0`. -/
def deserialize_market_data (d : SerializedMarketData) (now : ℚ) : MarketData :=
  { brand := d.brand
    model := d.model
    condition := d.condition
    avg_sold_price := d.avg_sold_price
    median_sold_price := d.median_sold_price
    price_range_low := d.price_range_low
    price_range_high := d.price_range_high
    sold_count := d.sold_count
    sold_listings := d.sold_listings.map deserializeSoldListing
    active_listing_count := d.active_listing_count
    avg_active_price := d.avg_active_price
    median_active_price := d.median_active_price
    confidence := d.confidence
    data_age_hours := 0
    sources := d.sources
    created_at := now }

/-- One row of the `market_cache` table (the `brand`/`model`/`condition`
columns are redundant with the key and omitted).  `data_json = none`
models a stored string on which deserialization raises. -/
structure CacheEntry where
  data_json : Option SerializedMarketData
  created_at : ℚ
  expires_at : ℚ
deriving DecidableEq

abbrev CacheState : Type := List (String × CacheEntry)

/-- `CacheManager._generate_cache_key` normalization:
`' '.join(s.lower().split())`. -/
def normalizeWs (s : String) : String :=
  " ".intercalate ((s.toLower.split Char.isWhitespace).filter fun t => !t.isEmpty)

/-- `CacheManager._generate_cache_key` (cache_manager.py lines 61-68). -/
def generate_cache_key (brand model condition : String) : String :=
  normalizeWs brand ++ "_" ++ normalizeWs model ++ "_" ++ condition.toLower.trim

/-- `CacheManager._delete_cache_entry` (cache_manager.py lines 167-175). -/
def delete_cache_entry (st : CacheState) (cache_key : String) : CacheState :=
  st.filter fun e => !(e.1 == cache_key)

/-- `CacheManager.get_cached_market_data` (cache_manager.py lines 70-122),
with the database as explicit state and `datetime.now()` as the `now`
argument; returns the result together with the post-call state. -/
def get_cached_market_data (st : CacheState) (brand model condition : String)
    (now : ℚ) : Option MarketData × CacheState :=
  let cache_key := generate_cache_key brand model condition
  match st.lookup cache_key with
  | none => (none, st)
  | some e =>
      if e.expires_at < now then (none, delete_cache_entry st cache_key)
      else
        match e.data_json with
        | none => (none, delete_cache_entry st cache_key)
        | some d =>
            let market_data := deserialize_market_data d now
            (some { market_data with data_age_hours := now - e.created_at }, st)

/-- `CacheManager.cache_market_data` (cache_manager.py lines 124-165):
INSERT OR REPLACE of the serialized record under its key, with
`created_at = now` and `expires_at = now + cache_duration_hours`. -/
def cache_market_data (st : CacheState) (market_data : MarketData) (now : ℚ) :
    CacheState :=
  let cache_key := generate_cache_key market_data.brand market_data.model
      market_data.condition
  (cache_key,
    { data_json := some (serialize_market_data market_data)
      created_at := now
      expires_at := now + cache_duration_hours }) :: delete_cache_entry st cache_key

/-- Steps 1-3 of `get_pricing_recommendation` (pricing_engine.py lines
63-83): cache lookup, conditional fetch-and-store, pricing calculation.
The fresh fetch result is passed in as `fetched` (the collaborator calls
inside `fetch_market_data` happen only on a miss and are irrelevant to the
store decision). -/
def get_pricing_recommendation_steps (st : CacheState)
    (brand model condition : String) (retail_price : Option ℚ)
    (fetched : MarketData) (now : ℚ) : PricingRecommendation × CacheState :=
  match get_cached_market_data st brand model condition now with
  | (some market_data, st1) =>
      (calculate_pricing_from_market_data market_data condition retail_price, st1)
  | (none, st1) =>
      let st2 :=
        if 0 < fetched.sold_count ∨ 0 < fetched.active_listing_count then
          cache_market_data st1 fetched now
        else st1
      (calculate_pricing_from_market_data fetched condition retail_price, st2)

/-! Helper lemmas shared by several claims. -/

theorem conditionPenalty_bounds (condition : String) :
    0 ≤ conditionPenalty condition ∧ conditionPenalty condition ≤ 1/2 := by
  unfold conditionPenalty
  split_ifs <;> norm_num

theorem binPrice_pos (base_price : ℚ) (condition : String) (h : 0 < base_price) :
    0 < binPrice base_price condition := by
  have hb := conditionPenalty_bounds condition
  unfold binPrice base_multiplier
  have h1 : (0:ℚ) < 1 - conditionPenalty condition := by linarith [hb.2]
  positivity

theorem calculate_pricing_of_selectBase (market_data : MarketData)
    (condition : String) (retail_price : Option ℚ) (base_price confidence : ℚ)
    (reasoning : String)
    (hsel : selectBase market_data retail_price = some (base_price, confidence, reasoning)) :
    calculate_pricing_from_market_data market_data condition retail_price =
      tierRecommendation market_data condition base_price confidence reasoning := by
  unfold calculate_pricing_from_market_data
  rw [hsel]

/-- C1: tier selection of `calculate_pricing_from_market_data` follows the
strict order sold-comps (confidence 0.9, base = avg_sold_price), then
active listings (confidence 0.6, base = avg_active_price * 0.95), then
retail fallback (confidence 0.3, base = retail_price * 0.50); the sold
tier applies whenever `sold_count >= min_sold_samples`, regardless of any
active-listing data. -/
theorem c1_tier_selection (md : MarketData) (condition : String)
    (retail_price : Option ℚ) :
    (min_sold_samples ≤ md.sold_count →
      (calculate_pricing_from_market_data md condition retail_price).buy_it_now_price
          = binPrice md.avg_sold_price condition ∧
      (calculate_pricing_from_market_data md condition retail_price).confidence = 9/10) ∧
    (md.sold_count < min_sold_samples → 0 < md.active_listing_count →
      (calculate_pricing_from_market_data md condition retail_price).buy_it_now_price
          = binPrice (md.avg_active_price * (95/100)) condition ∧
      (calculate_pricing_from_market_data md condition retail_price).confidence = 6/10) ∧
    (md.sold_count < min_sold_samples → md.active_listing_count = 0 →
      ∀ r : ℚ, retail_price = some r → 0 < r →
      (calculate_pricing_from_market_data md condition retail_price).buy_it_now_price
          = binPrice (r * fallback_msrp_multiplier) condition ∧
      (calculate_pricing_from_market_data md condition retail_price).confidence = 3/10) := by
  refine ⟨fun h1 => ?_, fun h1 h2 => ?_, fun h1 h2 r hr hrpos => ?_⟩
  · rw [calculate_pricing_of_selectBase md condition retail_price
      md.avg_sold_price (9/10) "Based on sold listings" ?_]
    · exact ⟨rfl, rfl⟩
    · unfold selectBase
      rw [if_pos h1]
  · rw [calculate_pricing_of_selectBase md condition retail_price
      (md.avg_active_price * (95/100)) (6/10) "Based on active listings" ?_]
    · exact ⟨rfl, rfl⟩
    · unfold selectBase
      rw [if_neg (Nat.not_le.mpr h1), if_pos h2]
  · subst hr
    rw [calculate_pricing_of_selectBase md condition (some r)
      (r * fallback_msrp_multiplier) (3/10) "Fallback to MSRP" ?_]
    · exact ⟨rfl, rfl⟩
    · unfold selectBase
      rw [if_neg (Nat.not_le.mpr h1), if_neg (by omega), if_pos (by
        simp [retailUsable, hrpos])]
      rfl

/-- C1 witness: a record with 5 sold comps and 10 active listings uses the
sold tier with confidence 0.9. -/
theorem c1_tier_selection_witness :
    (calculate_pricing_from_market_data
        { brand := "b", model := "m", condition := "USED_GOOD", sold_count := 5,
          avg_sold_price := 150, active_listing_count := 10, avg_active_price := 120 }
        "USED_GOOD" none).buy_it_now_price = binPrice 150 "USED_GOOD" ∧
    (calculate_pricing_from_market_data
        { brand := "b", model := "m", condition := "USED_GOOD", sold_count := 5,
          avg_sold_price := 150, active_listing_count := 10, avg_active_price := 120 }
        "USED_GOOD" none).confidence = 9/10 :=
  (c1_tier_selection
    { brand := "b", model := "m", condition := "USED_GOOD", sold_count := 5,
      avg_sold_price := 150, active_listing_count := 10, avg_active_price := 120 }
    "USED_GOOD" none).1 (by decide)

/-- C2 counterexample: a record with positive `active_listing_count` but
`avg_active_price = 0` (the shape `analyze_active_competition` returns when
no listing carries a parseable price, browse_api.py lines 305-313) yields
`buy_it_now_price = 0` with confidence 0.6, so the claimed invariant fails
as stated. -/
theorem c2_zero_price_counterexample :
    ¬ ((calculate_pricing_from_market_data
          { brand := "b", model := "m", condition := "USED_GOOD",
            active_listing_count := 5 } "USED_GOOD" none).buy_it_now_price = 0 →
        (calculate_pricing_from_market_data
          { brand := "b", model := "m", condition := "USED_GOOD",
            active_listing_count := 5 } "USED_GOOD" none).confidence = 0) := by
  simp only [calculate_pricing_from_market_data, selectBase, tierRecommendation, binPrice,
    conditionPenalty, retailUsable, min_sold_samples, base_multiplier, best_offer_enabled]
  norm_num

/-- C2 amended: the zero-price-implies-zero-confidence invariant holds for
every record whose tier averages are positive where a tier can fire
(`avg_sold_price > 0` when the sold tier applies, `avg_active_price > 0`
when the active tier applies). -/
theorem c2_zero_bin_zero_confidence (md : MarketData) (condition : String)
    (retail_price : Option ℚ)
    (hsold : min_sold_samples ≤ md.sold_count → 0 < md.avg_sold_price)
    (hactive : 0 < md.active_listing_count → 0 < md.avg_active_price) :
    (calculate_pricing_from_market_data md condition retail_price).buy_it_now_price = 0 →
    (calculate_pricing_from_market_data md condition retail_price).confidence = 0 := by
  rcases hsel : selectBase md retail_price with _ | ⟨base_price, confidence, reasoning⟩
  · intro _
    unfold calculate_pricing_from_market_data
    rw [hsel]
  · intro hbin
    exfalso
    rw [calculate_pricing_of_selectBase md condition retail_price
      base_price confidence reasoning hsel] at hbin
    have hbase : 0 < base_price := by
      unfold selectBase at hsel
      split_ifs at hsel with h1 h2 h3
      · simp only [Option.some.injEq, Prod.mk.injEq] at hsel
        rw [← hsel.1]
        exact hsold h1
      · simp only [Option.some.injEq, Prod.mk.injEq] at hsel
        rw [← hsel.1]
        have := hactive h2
        positivity
      · rcases hre : retail_price with _ | r
        · rw [hre] at h3
          simp [retailUsable] at h3
        · rw [hre] at h3 hsel
          simp only [retailUsable, decide_eq_true_eq] at h3
          simp only [Option.some.injEq, Prod.mk.injEq] at hsel
          rw [← hsel.1]
          unfold fallback_msrp_multiplier
          simp only [Option.getD_some]
          positivity
    exact absurd hbin (ne_of_gt (binPrice_pos base_price condition hbase))

/-- C2 witness for the amended statement: the no-data record prices at 0
with confidence 0. -/
theorem c2_zero_bin_zero_confidence_witness :
    (calculate_pricing_from_market_data
        { brand := "b", model := "m", condition := "USED_GOOD" }
        "USED_GOOD" none).confidence = 0 :=
  c2_zero_bin_zero_confidence
    { brand := "b", model := "m", condition := "USED_GOOD" } "USED_GOOD" none
    (by intro h; exact absurd h (by decide)) (by intro h; exact absurd h (by decide))
    (by simp [calculate_pricing_from_market_data, selectBase, retailUsable,
      min_sold_samples])

/-- C4: with no sold data, no active data, and a retail price that is
absent or not positive, `calculate_pricing_from_market_data` returns the
no-data terminal: price 0, confidence 0, the no-data reasoning string, and
no best-offer thresholds. -/
theorem c4_no_data_terminal (md : MarketData) (condition : String)
    (retail_price : Option ℚ)
    (hs : md.sold_count = 0) (ha : md.active_listing_count = 0)
    (hr : ∀ r : ℚ, retail_price = some r → r ≤ 0) :
    (calculate_pricing_from_market_data md condition retail_price).buy_it_now_price = 0 ∧
    (calculate_pricing_from_market_data md condition retail_price).confidence = 0 ∧
    (calculate_pricing_from_market_data md condition retail_price).reasoning =
      "No market data or retail price available" ∧
    (calculate_pricing_from_market_data md condition retail_price).min_offer_price = none ∧
    (calculate_pricing_from_market_data md condition retail_price).auto_accept_offer = none ∧
    (calculate_pricing_from_market_data md condition retail_price).auto_decline_offer = none := by
  have hsel : selectBase md retail_price = none := by
    unfold selectBase
    rw [if_neg (by rw [hs]; decide), if_neg (by omega), if_neg ?_]
    rcases hre : retail_price with _ | r
    · simp [retailUsable]
    · have := hr r hre
      simp [retailUsable]
      linarith
  unfold calculate_pricing_from_market_data
  rw [hsel]
  exact ⟨rfl, rfl, rfl, rfl, rfl, rfl⟩

/-- C4 witness: the empty record with no retail price hits the no-data
terminal. -/
theorem c4_no_data_terminal_witness :
    (calculate_pricing_from_market_data
        { brand := "b", model := "m", condition := "USED_GOOD" }
        "USED_GOOD" none).buy_it_now_price = 0 ∧
    (calculate_pricing_from_market_data
        { brand := "b", model := "m", condition := "USED_GOOD" }
        "USED_GOOD" none).confidence = 0 :=
  have h := c4_no_data_terminal
    { brand := "b", model := "m", condition := "USED_GOOD" } "USED_GOOD" none
    rfl rfl (fun r hr => by cases hr)
  ⟨h.1, h.2.1⟩

/-- C6: whenever one of the three data tiers fires (best-offer is enabled
by default), the thresholds are the exact fixed fractions of the
buy-it-now price: min_offer = BIN * 0.85, auto_accept = BIN * 0.95,
auto_decline = BIN * 0.75. -/
theorem c6_best_offer_thresholds (md : MarketData) (condition : String)
    (retail_price : Option ℚ)
    (h : min_sold_samples ≤ md.sold_count ∨ 0 < md.active_listing_count ∨
      retailUsable retail_price = true) :
    (calculate_pricing_from_market_data md condition retail_price).min_offer_price =
      some ((calculate_pricing_from_market_data md condition retail_price).buy_it_now_price
        * (85/100)) ∧
    (calculate_pricing_from_market_data md condition retail_price).auto_accept_offer =
      some ((calculate_pricing_from_market_data md condition retail_price).buy_it_now_price
        * (95/100)) ∧
    (calculate_pricing_from_market_data md condition retail_price).auto_decline_offer =
      some ((calculate_pricing_from_market_data md condition retail_price).buy_it_now_price
        * (75/100)) := by
  unfold calculate_pricing_from_market_data selectBase
  split_ifs with h1 h2 h3
  · exact ⟨rfl, rfl, rfl⟩
  · exact ⟨rfl, rfl, rfl⟩
  · exact ⟨rfl, rfl, rfl⟩
  · rcases h with h | h | h
    · exact absurd h h1
    · exact absurd h h2
    · exact absurd h h3

/-- C6 witness, the spec scenario: sold_count = 3, avg_sold_price = 200,
condition USED_GOOD gives BIN = 165.60, min_offer = 140.76, auto_accept =
157.32, auto_decline = 124.20 (as exact rationals). -/
theorem c6_best_offer_thresholds_witness :
    (calculate_pricing_from_market_data
        { brand := "b", model := "m", condition := "USED_GOOD", sold_count := 3,
          avg_sold_price := 200 } "USED_GOOD" none).buy_it_now_price = 828/5 ∧
    (calculate_pricing_from_market_data
        { brand := "b", model := "m", condition := "USED_GOOD", sold_count := 3,
          avg_sold_price := 200 } "USED_GOOD" none).min_offer_price = some (3519/25) ∧
    (calculate_pricing_from_market_data
        { brand := "b", model := "m", condition := "USED_GOOD", sold_count := 3,
          avg_sold_price := 200 } "USED_GOOD" none).auto_accept_offer = some (3933/25) ∧
    (calculate_pricing_from_market_data
        { brand := "b", model := "m", condition := "USED_GOOD", sold_count := 3,
          avg_sold_price := 200 } "USED_GOOD" none).auto_decline_offer = some (621/5) := by
  have hbin : (calculate_pricing_from_market_data
      { brand := "b", model := "m", condition := "USED_GOOD", sold_count := 3,
        avg_sold_price := 200 } "USED_GOOD" none).buy_it_now_price = 828/5 := by
    have hpen : conditionPenalty "USED_GOOD" = 10/100 := by simp [conditionPenalty]
    simp only [calculate_pricing_from_market_data, selectBase, tierRecommendation, binPrice,
      hpen, min_sold_samples, base_multiplier]
    norm_num
  have h := c6_best_offer_thresholds
    { brand := "b", model := "m", condition := "USED_GOOD", sold_count := 3,
      avg_sold_price := 200 } "USED_GOOD" none (Or.inl (by decide))
  refine ⟨hbin, ?_, ?_, ?_⟩
  · rw [h.1, hbin]; norm_num
  · rw [h.2.1, hbin]; norm_num
  · rw [h.2.2, hbin]; norm_num

/-- C9: for a fixed positive selected base price, the buy-it-now price is
strictly increasing from FOR_PARTS_OR_NOT_WORKING to USED_GOOD to
LIKE_NEW, all other inputs equal (the tier selection does not depend on
the condition). -/
theorem c9_condition_penalty_monotone (md : MarketData) (retail_price : Option ℚ)
    (base_price confidence : ℚ) (reasoning : String)
    (hsel : selectBase md retail_price = some (base_price, confidence, reasoning))
    (hpos : 0 < base_price) :
    (calculate_pricing_from_market_data md "FOR_PARTS_OR_NOT_WORKING"
        retail_price).buy_it_now_price <
      (calculate_pricing_from_market_data md "USED_GOOD" retail_price).buy_it_now_price ∧
    (calculate_pricing_from_market_data md "USED_GOOD"
        retail_price).buy_it_now_price <
      (calculate_pricing_from_market_data md "LIKE_NEW" retail_price).buy_it_now_price := by
  rw [calculate_pricing_of_selectBase md "FOR_PARTS_OR_NOT_WORKING" retail_price
      base_price confidence reasoning hsel,
    calculate_pricing_of_selectBase md "USED_GOOD" retail_price
      base_price confidence reasoning hsel,
    calculate_pricing_of_selectBase md "LIKE_NEW" retail_price
      base_price confidence reasoning hsel]
  show binPrice base_price "FOR_PARTS_OR_NOT_WORKING" < binPrice base_price "USED_GOOD" ∧
    binPrice base_price "USED_GOOD" < binPrice base_price "LIKE_NEW"
  have h1 : conditionPenalty "FOR_PARTS_OR_NOT_WORKING" = 50/100 := by simp [conditionPenalty]
  have h2 : conditionPenalty "USED_GOOD" = 10/100 := by simp [conditionPenalty]
  have h3 : conditionPenalty "LIKE_NEW" = 0 := by simp [conditionPenalty]
  simp only [binPrice, h1, h2, h3, base_multiplier]
  constructor <;> nlinarith [hpos]

/-- C9 witness at base price 100 (sold tier). -/
theorem c9_condition_penalty_monotone_witness :
    (calculate_pricing_from_market_data
        { brand := "b", model := "m", condition := "USED_GOOD", sold_count := 3,
          avg_sold_price := 100 } "FOR_PARTS_OR_NOT_WORKING" none).buy_it_now_price <
      (calculate_pricing_from_market_data
        { brand := "b", model := "m", condition := "USED_GOOD", sold_count := 3,
          avg_sold_price := 100 } "USED_GOOD" none).buy_it_now_price :=
  (c9_condition_penalty_monotone
    { brand := "b", model := "m", condition := "USED_GOOD", sold_count := 3,
      avg_sold_price := 100 } none 100 (9/10) "Based on sold listings"
    (by simp [selectBase, min_sold_samples]) (by norm_num)).1

/-- C3 counterexample: for prices [100, 102, 98, 101, 5000] the z-score of
5000 is 3919.8 / stdev ≈ 1.79, below the threshold 2.5 (with the sample
standard deviation, no z-score in a 5-element sample can exceed 4/√5 ≈
1.79), so the 5000 price is NOT excluded: the average is 1080.2 = 5401/5
(not the mean 100.25 of the other four) and the maximum of the filtered
set is still 5000. -/
theorem c3_outlier_example_counterexample :
    (calculate_sold_stats
        [{ title := "a", price := 100, sold_date := 0, condition := "U", source := "s" },
         { title := "b", price := 102, sold_date := 0, condition := "U", source := "s" },
         { title := "c", price := 98, sold_date := 0, condition := "U", source := "s" },
         { title := "d", price := 101, sold_date := 0, condition := "U", source := "s" },
         { title := "e", price := 5000, sold_date := 0, condition := "U", source := "s" }]).avg_sold_price
      = 5401/5 ∧
    (calculate_sold_stats
        [{ title := "a", price := 100, sold_date := 0, condition := "U", source := "s" },
         { title := "b", price := 102, sold_date := 0, condition := "U", source := "s" },
         { title := "c", price := 98, sold_date := 0, condition := "U", source := "s" },
         { title := "d", price := 101, sold_date := 0, condition := "U", source := "s" },
         { title := "e", price := 5000, sold_date := 0, condition := "U", source := "s" }]).price_range_high
      = 5000 ∧
    ¬ (5401 : ℚ)/5 = (100 + 102 + 98 + 101)/4 := by
  simp only [calculate_sold_stats, remove_outliers, sampleVariance, listSum, listMean, sq,
    listMedian, listMin, listMax, sortAsc, insertSorted, outlier_threshold, List.map, List.filter,
    List.isEmpty, List.length, List.foldr, List.foldl, List.getD, SoldListing.price]
  norm_num

/-- C3 amended: for every non-empty list of sold listings,
`calculate_sold_stats` filters the raw prices with `remove_outliers`, the
working set is never empty, z-score filtering happens only when the list
has at least 3 prices and nonzero sample variance (then exactly the prices
with squared z-score at most the squared threshold 2.5 survive; if none
would survive, exactly the median of the original prices is kept), the
avg/median/min/max are those of the working set, and `sold_count` is the
original pre-filter listing count.  (The spec's concrete example is wrong:
for [100, 102, 98, 101, 5000] nothing is removed, see the
counterexample.) -/
theorem c3_sold_stats_spec (ls : List SoldListing) (h : ls ≠ []) :
    workingSet ls ≠ [] ∧
    ((soldPrices ls).length < 3 ∨ sampleVariance (soldPrices ls) = 0 →
      workingSet ls = soldPrices ls) ∧
    (3 ≤ (soldPrices ls).length → sampleVariance (soldPrices ls) ≠ 0 →
      ((∃ p ∈ soldPrices ls, zscoreKeepB (soldPrices ls) p = true) →
        ∀ q : ℚ, q ∈ workingSet ls ↔
          q ∈ soldPrices ls ∧ zscoreKeepB (soldPrices ls) q = true) ∧
      ((∀ p ∈ soldPrices ls, zscoreKeepB (soldPrices ls) p = false) →
        workingSet ls = [listMedian (soldPrices ls)])) ∧
    calculate_sold_stats ls =
      { avg_sold_price := listMean (workingSet ls)
        median_sold_price := listMedian (workingSet ls)
        price_range_low := listMin (workingSet ls)
        price_range_high := listMax (workingSet ls)
        sold_count := ls.length } := by
  have hp : soldPrices ls ≠ [] := by
    intro hmap
    exact h (List.map_eq_nil_iff.mp hmap)
  refine ⟨?_, ?_, ?_, ?_⟩
  · unfold workingSet remove_outliers
    by_cases hlen : (soldPrices ls).length < 3
    · rw [if_pos hlen]; exact hp
    · rw [if_neg hlen]
      by_cases hvar : sampleVariance (soldPrices ls) = 0
      · rw [if_pos hvar]; exact hp
      · rw [if_neg hvar]
        by_cases hemp : ((soldPrices ls).filter fun p =>
            decide (sq (p - listMean (soldPrices ls)) ≤
              sq outlier_threshold * sampleVariance (soldPrices ls))).isEmpty = true
        · rw [if_pos hemp]; simp
        · rw [if_neg hemp]
          intro hnil
          rw [hnil] at hemp
          exact hemp rfl
  · intro h2
    unfold workingSet remove_outliers
    rcases h2 with h2 | h2
    · rw [if_pos h2]
    · by_cases hlen : (soldPrices ls).length < 3
      · rw [if_pos hlen]
      · rw [if_neg hlen, if_pos h2]
  · intro h3len h3var
    constructor
    · rintro ⟨p, hpmem, hpkeep⟩ q
      have hne : ¬ ((soldPrices ls).filter fun r =>
          decide (sq (r - listMean (soldPrices ls)) ≤
            sq outlier_threshold * sampleVariance (soldPrices ls))).isEmpty = true := by
        have hq : p ∈ (soldPrices ls).filter fun r =>
            decide (sq (r - listMean (soldPrices ls)) ≤
              sq outlier_threshold * sampleVariance (soldPrices ls)) := by
          rw [List.mem_filter]
          exact ⟨hpmem, hpkeep⟩
        intro hemp
        rw [List.isEmpty_iff] at hemp
        rw [hemp] at hq
        cases hq
      unfold workingSet remove_outliers
      rw [if_neg (Nat.not_lt.mpr h3len), if_neg h3var, if_neg hne]
      simp [zscoreKeepB, List.mem_filter]
    · intro hall
      unfold workingSet remove_outliers
      rw [if_neg (Nat.not_lt.mpr h3len), if_neg h3var, if_pos ?_]
      rw [List.isEmpty_iff, List.filter_eq_nil_iff]
      intro a ha
      have := hall a ha
      simpa [zscoreKeepB] using this
  · unfold calculate_sold_stats
    rw [if_neg (by simp [List.isEmpty_iff, h])]
    rfl

/-- C3 witness: a well-spread 3-price list keeps everything and reports
count 3. -/
theorem c3_sold_stats_spec_witness :
    workingSet
        [{ title := "a", price := 1, sold_date := 0, condition := "U", source := "s" },
         { title := "b", price := 2, sold_date := 0, condition := "U", source := "s" },
         { title := "c", price := 3, sold_date := 0, condition := "U", source := "s" }] ≠ [] ∧
    (calculate_sold_stats
        [{ title := "a", price := 1, sold_date := 0, condition := "U", source := "s" },
         { title := "b", price := 2, sold_date := 0, condition := "U", source := "s" },
         { title := "c", price := 3, sold_date := 0, condition := "U", source := "s" }]).sold_count
      = 3 := by
  have hspec := c3_sold_stats_spec
    [{ title := "a", price := 1, sold_date := 0, condition := "U", source := "s" },
     { title := "b", price := 2, sold_date := 0, condition := "U", source := "s" },
     { title := "c", price := 3, sold_date := 0, condition := "U", source := "s" }]
    (by simp)
  refine ⟨hspec.1, ?_⟩
  rw [hspec.2.2.2]
  rfl

/-- C5: `fetch_market_data` is a total function of the query and the two
collaborator outcomes (so it never raises to its caller, whatever the two
sources do), and when the sold source raises or returns no listings and
the active source raises or reports a zero listing count, the returned
record carries the query identity with sold_count = 0,
active_listing_count = 0 and sources = []. -/
theorem c5_fetch_absorbs_failures (brand model condition : String)
    (soldResult : Except String (List SoldListing))
    (activeResult : Except String ActiveStats)
    (hs : ∀ ls : List SoldListing, soldResult = Except.ok ls → ls = [])
    (ha : ∀ s : ActiveStats, activeResult = Except.ok s → s.active_listing_count = 0) :
    (fetch_market_data brand model condition soldResult activeResult).brand = brand ∧
    (fetch_market_data brand model condition soldResult activeResult).model = model ∧
    (fetch_market_data brand model condition soldResult activeResult).condition = condition ∧
    (fetch_market_data brand model condition soldResult activeResult).sold_count = 0 ∧
    (fetch_market_data brand model condition soldResult activeResult).active_listing_count = 0 ∧
    (fetch_market_data brand model condition soldResult activeResult).sources = [] := by
  rcases soldResult with e | ls
  · rcases activeResult with e2 | s
    · exact ⟨rfl, rfl, rfl, rfl, rfl, rfl⟩
    · have h0 := ha s rfl
      simp [fetch_market_data, h0]
  · have hls := hs ls rfl
    subst hls
    rcases activeResult with e2 | s
    · simp [fetch_market_data]
    · have h0 := ha s rfl
      simp [fetch_market_data, h0]

/-- C5 witness: both collaborators raising yields the empty record. -/
theorem c5_fetch_absorbs_failures_witness :
    (fetch_market_data "b" "m" "c" (Except.error "boom")
        (Except.error "crash")).sold_count = 0 ∧
    (fetch_market_data "b" "m" "c" (Except.error "boom")
        (Except.error "crash")).active_listing_count = 0 ∧
    (fetch_market_data "b" "m" "c" (Except.error "boom")
        (Except.error "crash")).sources = [] :=
  have h := c5_fetch_absorbs_failures "b" "m" "c" (Except.error "boom")
    (Except.error "crash") (fun _ hl => by cases hl) (fun _ hl => by cases hl)
  ⟨h.2.2.2.1, h.2.2.2.2.1, h.2.2.2.2.2⟩

/-- C7: `get_cached_market_data` returns a miss and leaves the state alone
when no entry exists for the normalized key; deletes the entry and misses
when `now > expires_at`; deletes the entry and misses (without raising)
when the stored blob cannot be deserialized; and on a valid hit returns
the deserialized record with `data_age_hours` set to `now - created_at`
while leaving the state alone. -/
theorem c7_cache_get_spec (st : CacheState) (brand model condition : String)
    (now : ℚ) :
    (st.lookup (generate_cache_key brand model condition) = none →
      get_cached_market_data st brand model condition now = (none, st)) ∧
    (∀ e : CacheEntry, st.lookup (generate_cache_key brand model condition) = some e →
      e.expires_at < now →
      get_cached_market_data st brand model condition now =
        (none, delete_cache_entry st (generate_cache_key brand model condition))) ∧
    (∀ e : CacheEntry, st.lookup (generate_cache_key brand model condition) = some e →
      ¬ e.expires_at < now → e.data_json = none →
      get_cached_market_data st brand model condition now =
        (none, delete_cache_entry st (generate_cache_key brand model condition))) ∧
    (∀ (e : CacheEntry) (d : SerializedMarketData),
      st.lookup (generate_cache_key brand model condition) = some e →
      ¬ e.expires_at < now → e.data_json = some d →
      get_cached_market_data st brand model condition now =
        (some { deserialize_market_data d now with
                  data_age_hours := now - e.created_at }, st)) := by
  refine ⟨fun h => ?_, fun e he hexp => ?_, fun e he hexp hd => ?_,
    fun e d he hexp hd => ?_⟩
  · simp only [get_cached_market_data, h]
  · simp only [get_cached_market_data, he]
    rw [if_pos hexp]
  · simp only [get_cached_market_data, he]
    rw [if_neg hexp]
    simp only [hd]
  · simp only [get_cached_market_data, he]
    rw [if_neg hexp]
    simp only [hd]

/-- C7 witness: a fresh valid entry is a hit with its age reported. -/
theorem c7_cache_get_spec_witness :
    get_cached_market_data
        [(generate_cache_key "b" "m" "c",
          { data_json := some
              { brand := "b", model := "m", condition := "c", avg_sold_price := 0,
                median_sold_price := 0, price_range_low := 0, price_range_high := 0,
                sold_count := 0, sold_listings := [], active_listing_count := 0,
                avg_active_price := 0, median_active_price := 0, confidence := 0,
                sources := [] },
            created_at := 0, expires_at := 24 })] "b" "m" "c" 5 =
      (some { deserialize_market_data
          { brand := "b", model := "m", condition := "c", avg_sold_price := 0,
            median_sold_price := 0, price_range_low := 0, price_range_high := 0,
            sold_count := 0, sold_listings := [], active_listing_count := 0,
            avg_active_price := 0, median_active_price := 0, confidence := 0,
            sources := [] } 5 with data_age_hours := 5 - 0 },
        [(generate_cache_key "b" "m" "c",
          { data_json := some
              { brand := "b", model := "m", condition := "c", avg_sold_price := 0,
                median_sold_price := 0, price_range_low := 0, price_range_high := 0,
                sold_count := 0, sold_listings := [], active_listing_count := 0,
                avg_active_price := 0, median_active_price := 0, confidence := 0,
                sources := [] },
            created_at := 0, expires_at := 24 })]) :=
  (c7_cache_get_spec
      [(generate_cache_key "b" "m" "c",
        { data_json := some
            { brand := "b", model := "m", condition := "c", avg_sold_price := 0,
              median_sold_price := 0, price_range_low := 0, price_range_high := 0,
              sold_count := 0, sold_listings := [], active_listing_count := 0,
              avg_active_price := 0, median_active_price := 0, confidence := 0,
              sources := [] },
          created_at := 0, expires_at := 24 })] "b" "m" "c" 5).2.2.2
    { data_json := some
        { brand := "b", model := "m", condition := "c", avg_sold_price := 0,
          median_sold_price := 0, price_range_low := 0, price_range_high := 0,
          sold_count := 0, sold_listings := [], active_listing_count := 0,
          avg_active_price := 0, median_active_price := 0, confidence := 0,
          sources := [] },
      created_at := 0, expires_at := 24 }
    { brand := "b", model := "m", condition := "c", avg_sold_price := 0,
      median_sold_price := 0, price_range_low := 0, price_range_high := 0,
      sold_count := 0, sold_listings := [], active_listing_count := 0,
      avg_active_price := 0, median_active_price := 0, confidence := 0,
      sources := [] }
    (by simp [List.lookup]) (by decide) rfl

/-- C8 counterexample: on a cache miss with a fetch result that has no
sold and no active data, `get_pricing_recommendation` does NOT store the
fetched record (the guard on pricing_engine.py line 73 skips the store),
so the state after the call still has no entry for the key. -/
theorem c8_store_on_miss_counterexample :
    (get_cached_market_data [] "b" "m" "c" 0).1 = none ∧
    (get_pricing_recommendation_steps [] "b" "m" "c" none
        { brand := "b", model := "m", condition := "c" } 0).2 = [] ∧
    ((get_pricing_recommendation_steps [] "b" "m" "c" none
        { brand := "b", model := "m", condition := "c" } 0).2).lookup
      (generate_cache_key "b" "m" "c") = none := by
  refine ⟨rfl, ?_, ?_⟩
  · simp [get_pricing_recommendation_steps, get_cached_market_data]
  · simp [get_pricing_recommendation_steps, get_cached_market_data]

/-- C8 amended: on a cache miss the fetched record is stored if and only
if it has some sold or some active data (`sold_count > 0 or
active_listing_count > 0`); when stored, the entry is the serialized
record keyed by the normalized identity with a fresh TTL window. -/
theorem c8_store_on_miss_amended (st : CacheState) (brand model condition : String)
    (retail_price : Option ℚ) (fetched : MarketData) (now : ℚ)
    (hmiss : (get_cached_market_data st brand model condition now).1 = none) :
    (0 < fetched.sold_count ∨ 0 < fetched.active_listing_count →
      (get_pricing_recommendation_steps st brand model condition retail_price
          fetched now).2 =
        cache_market_data (get_cached_market_data st brand model condition now).2
          fetched now) ∧
    (fetched.sold_count = 0 → fetched.active_listing_count = 0 →
      (get_pricing_recommendation_steps st brand model condition retail_price
          fetched now).2 =
        (get_cached_market_data st brand model condition now).2) ∧
    (∀ st' : CacheState,
      (cache_market_data st' fetched now).lookup
          (generate_cache_key fetched.brand fetched.model fetched.condition) =
        some { data_json := some (serialize_market_data fetched),
               created_at := now, expires_at := now + cache_duration_hours }) := by
  rcases hg : get_cached_market_data st brand model condition now with ⟨cached, st1⟩
  rw [hg] at hmiss
  simp only at hmiss
  subst hmiss
  refine ⟨fun hc => ?_, fun h0 h1 => ?_, fun st' => ?_⟩
  · simp only [get_pricing_recommendation_steps, hg]
    rw [if_pos hc]
  · simp only [get_pricing_recommendation_steps, hg]
    rw [if_neg (by omega)]
  · simp [cache_market_data, List.lookup]

/-- C8 witness for the amended statement: a record with one sold comp is
stored on a miss against the empty cache. -/
theorem c8_store_on_miss_amended_witness :
    (get_pricing_recommendation_steps [] "b" "m" "c" none
        { brand := "b", model := "m", condition := "c", sold_count := 1 } 0).2 =
      cache_market_data []
        { brand := "b", model := "m", condition := "c", sold_count := 1 } 0 :=
  (c8_store_on_miss_amended [] "b" "m" "c" none
      { brand := "b", model := "m", condition := "c", sold_count := 1 } 0 rfl).1
    (Or.inl (by decide))

/-- C10: deserializing the serialization of any record restores brand,
model, condition, every sold-side field (including the sold listings),
every active-side field, confidence and sources; `created_at` and
`data_age_hours` are not round-tripped and come back as the fresh
construction defaults (`now` and 0). -/
theorem c10_serialize_roundtrip (md : MarketData) (now : ℚ) :
    (deserialize_market_data (serialize_market_data md) now).brand = md.brand ∧
    (deserialize_market_data (serialize_market_data md) now).model = md.model ∧
    (deserialize_market_data (serialize_market_data md) now).condition = md.condition ∧
    (deserialize_market_data (serialize_market_data md) now).avg_sold_price
      = md.avg_sold_price ∧
    (deserialize_market_data (serialize_market_data md) now).median_sold_price
      = md.median_sold_price ∧
    (deserialize_market_data (serialize_market_data md) now).price_range_low
      = md.price_range_low ∧
    (deserialize_market_data (serialize_market_data md) now).price_range_high
      = md.price_range_high ∧
    (deserialize_market_data (serialize_market_data md) now).sold_count = md.sold_count ∧
    (deserialize_market_data (serialize_market_data md) now).sold_listings
      = md.sold_listings ∧
    (deserialize_market_data (serialize_market_data md) now).active_listing_count
      = md.active_listing_count ∧
    (deserialize_market_data (serialize_market_data md) now).avg_active_price
      = md.avg_active_price ∧
    (deserialize_market_data (serialize_market_data md) now).median_active_price
      = md.median_active_price ∧
    (deserialize_market_data (serialize_market_data md) now).confidence = md.confidence ∧
    (deserialize_market_data (serialize_market_data md) now).sources = md.sources ∧
    (deserialize_market_data (serialize_market_data md) now).created_at = now ∧
    (deserialize_market_data (serialize_market_data md) now).data_age_hours = 0 := by
  refine ⟨rfl, rfl, rfl, rfl, rfl, rfl, rfl, rfl, ?_, rfl, rfl, rfl, rfl, rfl, rfl, rfl⟩
  show (md.sold_listings.map serializeSoldListing).map deserializeSoldListing
    = md.sold_listings
  rw [List.map_map]
  have hid : deserializeSoldListing ∘ serializeSoldListing = id := by
    funext l
    cases l
    rfl
  rw [hid, List.map_id]

end EbayPricing
